import Mathlib

/-!
# Verification of the mini-rag query-answering and cost/telemetry pipeline

Shallow embedding of `backend/mock_rag_pipeline.py`, the pure core of
`backend/rag_pipeline.py` (`estimate_costs`, `get_answer`'s result assembly),
and the `/query` endpoint of `backend/main.py`.

Modelling conventions:
* Python `str` is Lean `String`, operated on through its code-point list
  `String.data` (Python strings are code-point sequences): `str.split(sep)`
  is `pySplitOnSep`, `str.split()` (whitespace split, empties dropped) is
  `pyWords`, `str.strip()` is `pyStrip`, `str.lower()` is `pyLower`,
  `s[:n]` is `pyTake`, `sep.join(l)` is `pyJoin`. These are structurally
  recursive so that every theorem can be evaluated on concrete inputs.
* Python floats are modelled as exact rationals `ℚ`; `round(x, 6)` is
  `pyRound6` (round half to even, as Python's `round`).
* The process-global `mock_documents` list is passed explicitly as a state
  argument; `mock_get_text_chunks` returns the chunk list that the Python
  assigns to the global.
* Wall-clock `timing` fields are not modelled (no claim concerns them).
* External services (tiktoken, the LLM, the retriever backend) are
  parameters of the embedding: `get_answer` takes the token counter, the
  documents its retriever returned, and the LLM response text as inputs.
-/

namespace MiniRag

/-- Split a code-point list at every character satisfying `p`, keeping empty
pieces (the semantics of splitting on a single separator occurrence-wise). -/
def pySplitPred (p : Char → Bool) : List Char → List (List Char)
  | [] => [[]]
  | c :: cs =>
    if p c then [] :: pySplitPred p cs
    else
      match pySplitPred p cs with
      | [] => [[c]]
      | piece :: rest => (c :: piece) :: rest

/-- Fuel-driven worker for `pySplitOnSep`: scan `l`, cutting at each
non-overlapping occurrence of `sep` (left to right), accumulating the
current piece in reverse in `acc`. `fuel ≥ l.length` makes the fuel-out
case unreachable. -/
def pySplitSepAux (sep : List Char) : ℕ → List Char → List Char → List (List Char)
  | _, [], acc => [acc.reverse]
  | 0, l, acc => [acc.reverse ++ l]
  | fuel + 1, c :: cs, acc =>
    if sep.isPrefixOf (c :: cs) then
      acc.reverse :: pySplitSepAux sep fuel (List.drop sep.length (c :: cs)) []
    else
      pySplitSepAux sep fuel cs (c :: acc)

/-- Python `s.split(sep)` for a non-empty separator: split at each
non-overlapping occurrence of `sep`, keeping empty pieces
(e.g. `"a\n\n\n\nb".split("\n\n") == ["a", "", "b"]`). -/
def pySplitOnSep (s : String) (sep : String) : List String :=
  (pySplitSepAux sep.data s.data.length s.data []).map (fun cs => ⟨cs⟩)

/-- Python `s.split()` — split on whitespace, dropping empty pieces. -/
def pyWords (s : String) : List String :=
  ((pySplitPred Char.isWhitespace s.data).map (fun cs => (⟨cs⟩ : String))).filter
    (fun w => w ≠ "")

/-- Python `s.strip()` — drop leading and trailing whitespace (ASCII
whitespace; the exotic Python-only whitespace code points do not occur in
any input considered here). -/
def pyStrip (s : String) : String :=
  ⟨((s.data.dropWhile Char.isWhitespace).reverse.dropWhile Char.isWhitespace).reverse⟩

/-- Python `s.lower()` (ASCII case mapping). -/
def pyLower (s : String) : String :=
  ⟨s.data.map Char.toLower⟩

/-- Python `s[:n]` — the first `n` code points. -/
def pyTake (s : String) (n : ℕ) : String :=
  ⟨s.data.take n⟩

/-- Python `sep.join(pieces)`. -/
def pyJoin (sep : String) : List String → String
  | [] => ""
  | [s] => s
  | s :: rest => s ++ sep ++ pyJoin sep rest

/-- Round half to even to the nearest integer, as Python's `round(x)` on an
exact value. -/
def pyRoundHalfEven (x : ℚ) : ℤ :=
  let n : ℤ := ⌊x⌋
  let r : ℚ := x - n
  if r < 1/2 then n
  else if 1/2 < r then n + 1
  else if n % 2 = 0 then n else n + 1

/-- Python `round(x, 6)` on an exact value. -/
def pyRound6 (x : ℚ) : ℚ := (pyRoundHalfEven (x * 10^6) : ℚ) / 10^6

/-- Chunk metadata, as built by both chunkers
(`{"source": ..., "title": ..., "position": ...}`). -/
structure ChunkMeta where
  source : String
  title : String
  position : ℕ
  deriving Repr, DecidableEq

/-- A chunk / document: `{"page_content": ..., "metadata": {...}}`. -/
structure Chunk where
  page_content : String
  metadata : ChunkMeta
  deriving Repr, DecidableEq

/-- The `cost_breakdown` dict of an answer result. Costs are exact rationals
standing for the Python floats. -/
structure CostBreakdown where
  embedding_tokens : ℕ
  llm_input_tokens : ℕ
  llm_output_tokens : ℕ
  embedding_cost : ℚ
  llm_input_cost : ℚ
  llm_output_cost : ℚ
  total_cost : ℚ
  deriving Repr, DecidableEq

/-- The `token_usage` dict of an answer result. -/
structure TokenUsage where
  context_tokens : ℕ
  query_tokens : ℕ
  prompt_tokens : ℕ
  output_tokens : ℕ
  total_llm_tokens : ℕ
  deriving Repr, DecidableEq

/-- An answer result as returned by `mock_get_answer` / `get_answer`
(the wall-clock `timing` field is not modelled). -/
structure AnswerResult where
  answer : String
  sources : List Chunk
  cost_breakdown : CostBreakdown
  token_usage : TokenUsage
  deriving Repr, DecidableEq

/-- `mock_rag_pipeline.mock_get_text_chunks`: split on `"\n\n"`, keep the
paragraphs whose `strip()` is non-empty, each as a chunk with the stripped
text and `position := i + 1` where `i` is the paragraph's index in the
*original* split (`enumerate(paragraphs)`). Returns the list the Python
stores into the global `mock_documents`. -/
def mock_get_text_chunks (text_content : String) (source_name : String) :
    List Chunk :=
  let paragraphs := pySplitOnSep text_content "\n\n"
  (paragraphs.enum.filter (fun ip => pyStrip ip.2 ≠ "")).map (fun ip =>
    { page_content := pyStrip ip.2
      metadata :=
        { source := source_name
          title := source_name
          position := ip.1 + 1 } })

/-- The keyword test of `mock_get_answer`: the lower-cased whitespace-split
word set of the query intersects that of the chunk text
(`query_words.intersection(doc_words)` non-empty). -/
def mock_relevant (query : String) (doc : Chunk) : Bool :=
  (pyWords (pyLower query)).any (fun w =>
    (pyWords (pyLower doc.page_content)).contains w)

/-- Refusal sentence of the never-indexed branch of `mock_get_answer`. -/
def mock_no_docs_answer : String :=
  "Based on the provided documents, I cannot answer this question as no documents have been processed yet."

/-- Refusal sentence of the zero-relevant-chunks branch of `mock_get_answer`. -/
def mock_no_match_answer : String :=
  "Based on the provided documents, I cannot find specific information to answer this question."

/-- `mock_rag_pipeline.mock_get_answer`. The Python global `mock_documents`
is the explicit argument `mock_documents`; the `retriever` argument is kept
(of arbitrary type) exactly because the Python receives and never reads it.
Costs follow the source formulas, e.g.
`"total_cost": (context_tokens * 2 + query_tokens + output_tokens) * 0.0001 / 1000`. -/
def mock_get_answer {ρ : Type} (query : String) ( retriever : ρ)
    (mock_documents : List Chunk) : AnswerResult :=
  if mock_documents.isEmpty then
    { answer := mock_no_docs_answer
      sources := []
      cost_breakdown :=
        { embedding_tokens := 0, llm_input_tokens := 0, llm_output_tokens := 0
          embedding_cost := 0, llm_input_cost := 0, llm_output_cost := 0
          total_cost := 0 }
      token_usage :=
        { context_tokens := 0
          query_tokens := (pyWords query).length
          prompt_tokens := 0
          output_tokens := 0
          total_llm_tokens := 0 } }
  else
    let relevant_docs :=
      (mock_documents.filter (fun doc => mock_relevant query doc)).take 3
    let answer :=
      if relevant_docs.isEmpty then
        mock_no_match_answer
      else
        pyJoin ". " (relevant_docs.enum.map (fun idoc =>
          let sentences := pySplitOnSep idoc.2.page_content "."
          let relevant_sentence :=
            match sentences with
            | [] => pyTake idoc.2.page_content 100
            | s :: _ => s
          pyStrip relevant_sentence ++ " [" ++ toString (idoc.1 + 1) ++ "]")) ++ "."
    let context_tokens :=
      (relevant_docs.map (fun doc => (pyWords doc.page_content).length)).sum
    let query_tokens := (pyWords query).length
    let output_tokens := (pyWords answer).length
    { answer := answer
      sources := relevant_docs
      cost_breakdown :=
        { embedding_tokens := context_tokens
          llm_input_tokens := context_tokens + query_tokens
          llm_output_tokens := output_tokens
          embedding_cost := (context_tokens : ℚ) * (1/10^4) / 1000
          llm_input_cost := ((context_tokens + query_tokens : ℕ) : ℚ) * (1/10^4) / 1000
          llm_output_cost := (output_tokens : ℚ) * (1/10^4) / 1000
          total_cost :=
            ((context_tokens * 2 + query_tokens + output_tokens : ℕ) : ℚ) * (1/10^4) / 1000 }
      token_usage :=
        { context_tokens := context_tokens
          query_tokens := query_tokens
          prompt_tokens := context_tokens + query_tokens
          output_tokens := output_tokens
          total_llm_tokens := context_tokens + query_tokens + output_tokens } }

/-- `rag_pipeline.count_tokens`'s fallback branch: `len(text) // 4`
(the tiktoken branch is an external service; where a token counter matters
below it is a parameter). -/
def count_tokens_fallback (text : String) : ℕ := text.length / 4

/-- `rag_pipeline.estimate_costs`: per-1000-token rates
`0.0000125` / `0.0001` / `0.0001`, each cost rounded to 6 decimal places,
`total_cost` the rounded sum of the three *unrounded* costs. -/
def estimate_costs (embedding_tokens llm_input_tokens llm_output_tokens : ℕ) :
    CostBreakdown :=
  let gemini_embedding_cost_per_1k : ℚ := 125/10^7
  let groq_input_cost_per_1k : ℚ := 1/10^4
  let groq_output_cost_per_1k : ℚ := 1/10^4
  let embedding_cost := ((embedding_tokens : ℚ) / 1000) * gemini_embedding_cost_per_1k
  let llm_input_cost := ((llm_input_tokens : ℚ) / 1000) * groq_input_cost_per_1k
  let llm_output_cost := ((llm_output_tokens : ℚ) / 1000) * groq_output_cost_per_1k
  let total_cost := embedding_cost + llm_input_cost + llm_output_cost
  { embedding_tokens := embedding_tokens
    llm_input_tokens := llm_input_tokens
    llm_output_tokens := llm_output_tokens
    embedding_cost := pyRound6 embedding_cost
    llm_input_cost := pyRound6 llm_input_cost
    llm_output_cost := pyRound6 llm_output_cost
    total_cost := pyRound6 total_cost }

/-- `rag_pipeline.get_answer`'s `format_docs`: each chunk prefixed with
`[DOCUMENT n]`, joined by blank lines. -/
def format_docs (docs : List Chunk) : String :=
  pyJoin "\n\n" (docs.enum.map (fun idoc =>
    "[DOCUMENT " ++ toString (idoc.1 + 1) ++ "] " ++ idoc.2.page_content))

/-- The citation prompt template of `rag_pipeline.get_answer`, with
`{context}` and `{question}` substituted. -/
def prompt_template_format (context question : String) : String :=
  "\n    Use the following documents to answer the user's question.\n    Each document is formatted as [DOCUMENT n] where n is the document number, followed by its content.\n    Your answer MUST be grounded in the information from these documents.\n    For each sentence in your answer, you MUST include an inline citation to the document number that supports it. For example: \"This is a statement from a document [1].\"\n    If multiple documents support a sentence, cite them all, like: \"This is a complex statement [2][3].\"\n    If the documents do not contain enough information to answer the question, you MUST explicitly state: \"Based on the provided documents, I cannot answer this question as the information is not available in the sources.\"\n    Do not make up information that is not directly supported by the documents.\n\n    Documents:\n    " ++ context ++ "\n\n    Question: " ++ question ++ "\n    Answer:\n    "

/-- `rag_pipeline.get_answer`'s result assembly. External effects are inputs:
`tok` is `count_tokens`, `source_documents` is what
`retriever.get_relevant_documents(query)` returned, `response_content` is the
LLM's reply. -/
def get_answer (tok : String → ℕ) (query : String)
    (source_documents : List Chunk) (response_content : String) : AnswerResult :=
  let formatted_context := format_docs source_documents
  let context_tokens := tok formatted_context
  let query_tokens := tok query
  let prompt_tokens := tok (prompt_template_format formatted_context query)
  let output_tokens := tok response_content
  let embedding_tokens :=
    (source_documents.map (fun doc => tok doc.page_content)).sum
  { answer := response_content
    sources := source_documents
    cost_breakdown := estimate_costs embedding_tokens prompt_tokens output_tokens
    token_usage :=
      { context_tokens := context_tokens
        query_tokens := query_tokens
        prompt_tokens := prompt_tokens
        output_tokens := output_tokens
        total_llm_tokens := prompt_tokens + output_tokens } }

/-- The 400 detail of `main.handle_query` when no retriever is configured. -/
def no_upload_detail : String :=
  "No document has been uploaded and processed yet."

/-- The 400 detail of `main.upload_document` for an unsupported extension. -/
def unsupported_file_detail : String :=
  "Only .txt and .pdf files are supported."

/-- The 400 detail of `main.upload_text` for empty text. -/
def empty_text_detail : String :=
  "Text content cannot be empty."

/-- The 400 detail of `main.upload_document` for a file with no text. -/
def empty_file_detail : String :=
  "No text content found in the file."

/-- `main.handle_query`: with no retriever configured, raise a 400 with
`no_upload_detail`; otherwise run the selected pipeline, turning any pipeline
exception into a 500. The pipeline call is a parameter (it is
`mock_get_answer` or `get_answer` depending on `DEMO_MODE`). -/
def handle_query {R A : Type} ( retriever : Option R) (query : String)
    (pipeline : String → R → Except String A) : Except (ℕ × String) A :=
  match retriever with
  | none => .error (400, no_upload_detail)
  | some r =>
    match pipeline query r with
    | .ok result => .ok result
    | .error e => .error (500, e)

/-- A chunk with more than 100 characters of text and no `'.'` anywhere:
`"loyal "` followed by one hundred `'x'`s (106 characters in all). -/
def long_unpunctuated_text : String :=
  "loyal xxxxxxxxxxxxxxxxxxxxxxxxxxxxxxxxxxxxxxxxxxxxxxxxxxxxxxxxxxxxxxxxxxxxxxxxxxxxxxxxxxxxxxxxxxxxxxxxxxxx"

/-! ## Helper lemmas -/

theorem le_fst_of_mem_enumFrom {α : Type*} {x : ℕ × α} {n : ℕ} {l : List α}
    (h : x ∈ l.enumFrom n) : n ≤ x.1 := by
  induction l generalizing n with
  | nil => simp at h
  | cons a as ih =>
    rcases (by simpa using h) with h | h
    · simp [h]
    · exact Nat.le_of_succ_le (ih h)

theorem pairwise_fst_lt_enumFrom {α : Type*} (n : ℕ) (l : List α) :
    (l.enumFrom n).Pairwise (fun x y => x.1 < y.1) := by
  induction l generalizing n with
  | nil => simp
  | cons a as ih =>
    refine List.Pairwise.cons (fun y hy => ?_) (ih (n + 1))
    exact Nat.lt_of_succ_le (le_fst_of_mem_enumFrom hy)

theorem length_filter_enumFrom {α : Type*} (p : α → Bool) (n : ℕ) (l : List α) :
    ((l.enumFrom n).filter (fun ip => p ip.2)).length = (l.filter p).length := by
  induction l generalizing n with
  | nil => rfl
  | cons a as ih =>
    by_cases h : p a
    · simp [List.filter_cons, h, ih]
    · simp [List.filter_cons, h, ih]

/-! ## Claim theorems -/

/-- C10: the mock answer operation never consults its `retriever` argument:
for a fixed document store and query, the whole result (answer, sources,
cost breakdown, token usage — timing is outside the model) is identical for
any two retriever handles, even of different types. -/
theorem C10_retriever_unused {ρ₁ ρ₂ : Type} (r1 : ρ₁) (r2 : ρ₂)
    (query : String) (docs : List Chunk) :
    mock_get_answer query r1 docs = mock_get_answer query r2 docs := rfl

/-- C10 witness at concrete values. -/
theorem C10_retriever_unused_witness :
    mock_get_answer "q" (0 : ℕ) [] = mock_get_answer "q" "other" [] :=
  C10_retriever_unused (0 : ℕ) "other" "q" []

/-- C8: a query issued with no retriever configured returns a clean
400 error carrying the "No document has been uploaded..." detail — never a
crash (the handler is total) — and that detail is distinct from each of the
input-error details of the upload endpoints. -/
theorem C8_no_upload_query {R A : Type} (query : String)
    (pipeline : String → R → Except String A) :
    handle_query (none : Option R) query pipeline
        = .error (400, no_upload_detail) ∧
      no_upload_detail ≠ unsupported_file_detail ∧
      no_upload_detail ≠ empty_text_detail ∧
      no_upload_detail ≠ empty_file_detail :=
  ⟨rfl, by decide, by decide, by decide⟩

/-- C2 counterexample: before any upload, with the one-word query `"a"`, the
mock pipeline reports `query_tokens = 1`, so not every token field of
`token_usage` is zero as the claim states. -/
theorem C2_counterexample :
    (mock_get_answer "a" () ([] : List Chunk)).token_usage.query_tokens ≠ 0 := by
  decide

/-- C2 amended: before any upload the mock pipeline returns the distinct
"no documents have been processed yet" refusal, no sources, and all token and
cost fields zero — except `token_usage.query_tokens`, which is the number of
whitespace-separated words of the query. -/
theorem C2_never_indexed {ρ : Type} (query : String) (r : ρ) :
    mock_get_answer query r [] =
      { answer := mock_no_docs_answer
        sources := []
        cost_breakdown :=
          { embedding_tokens := 0, llm_input_tokens := 0, llm_output_tokens := 0
            embedding_cost := 0, llm_input_cost := 0, llm_output_cost := 0
            total_cost := 0 }
        token_usage :=
          { context_tokens := 0
            query_tokens := (pyWords query).length
            prompt_tokens := 0
            output_tokens := 0
            total_llm_tokens := 0 } } := rfl

/-- C6: for every answer result of either pipeline — the mock one on any
store (including the never-indexed branch) and the real one on any token
counter, retrieved documents and LLM reply — `total_llm_tokens` equals
`prompt_tokens + output_tokens`. -/
theorem C6_total_llm_tokens {ρ : Type} (query : String) (r : ρ)
    (docs : List Chunk) (tok : String → ℕ) (source_documents : List Chunk)
    (response_content : String) :
    ((mock_get_answer query r docs).token_usage.total_llm_tokens
        = (mock_get_answer query r docs).token_usage.prompt_tokens
            + (mock_get_answer query r docs).token_usage.output_tokens) ∧
      ((get_answer tok query source_documents response_content).token_usage.total_llm_tokens
        = (get_answer tok query source_documents response_content).token_usage.prompt_tokens
            + (get_answer tok query source_documents response_content).token_usage.output_tokens) := by
  constructor
  · cases docs with
    | nil => rfl
    | cons d ds => simp [mock_get_answer]
  · rfl

/-- C1 counterexample: after uploading `"Cats are mammals.\n\nDogs are loyal."`
in mock mode, the query `"Are dogs loyal?"` shares the word `"are"` with
*both* paragraphs, so the answer is not `"Dogs are loyal [1]."` and the
number of relevant chunks is not one. -/
theorem C1_counterexample :
    (mock_get_answer "Are dogs loyal?" ()
        (mock_get_text_chunks "Cats are mammals.\n\nDogs are loyal." "Direct Input")).answer
        ≠ "Dogs are loyal [1]." ∧
      (mock_get_answer "Are dogs loyal?" ()
        (mock_get_text_chunks "Cats are mammals.\n\nDogs are loyal." "Direct Input")).sources.length
        ≠ 1 := by
  decide

/-- C1 amended: the mock end-to-end example yields *two* relevant chunks —
`"Cats are mammals."` also matches the query through the shared lower-cased
word `"are"` — and the answer `"Cats are mammals [1]. Dogs are loyal [2]."`. -/
theorem C1_mock_end_to_end :
    (mock_get_answer "Are dogs loyal?" ()
        (mock_get_text_chunks "Cats are mammals.\n\nDogs are loyal." "Direct Input")).sources.map
          (fun c => c.page_content)
        = ["Cats are mammals.", "Dogs are loyal."] ∧
      (mock_get_answer "Are dogs loyal?" ()
        (mock_get_text_chunks "Cats are mammals.\n\nDogs are loyal." "Direct Input")).answer
        = "Cats are mammals [1]. Dogs are loyal [2]." := by
  decide

/-- C3 counterexample: on the input `"\n\nDogs."` the leading blank paragraph
is dropped but still counted, so the single emitted chunk has position 2 —
the positions do not start at 1 and are not indices over the surviving
paragraphs. -/
theorem C3_counterexample :
    (mock_get_text_chunks "\n\nDogs." "src").map (fun c => c.metadata.position) = [2] ∧
      (mock_get_text_chunks "\n\nDogs." "src").map (fun c => c.metadata.position) ≠ [1] := by
  decide

/-- C3 amended: the mock chunker splits on `"\n\n"` and drops blank
paragraphs, but each chunk's position is `i + 1` for `i` the paragraph's
index in the *original* split (blank paragraphs included in the count):
positions are strictly increasing, every chunk comes from a non-blank
paragraph at index `position - 1`, and the number of chunks equals the
number of non-blank paragraphs. -/
theorem C3_chunk_positions (text_content source_name : String) :
    ((mock_get_text_chunks text_content source_name).map
        (fun c => c.metadata.position)).Pairwise (· < ·) ∧
      (∀ c ∈ mock_get_text_chunks text_content source_name,
        ∃ i p, (pySplitOnSep text_content "\n\n")[i]? = some p ∧
          c.metadata.position = i + 1 ∧ c.page_content = pyStrip p ∧ pyStrip p ≠ "") ∧
      (mock_get_text_chunks text_content source_name).length
        = ((pySplitOnSep text_content "\n\n").filter (fun p => pyStrip p ≠ "")).length := by
  refine ⟨?_, ?_, ?_⟩
  · simp only [mock_get_text_chunks, List.map_map]
    rw [List.pairwise_map]
    refine ((pairwise_fst_lt_enumFrom 0 _).filter _).imp ?_
    intro a b hab
    exact Nat.succ_lt_succ hab
  · intro c hc
    simp only [mock_get_text_chunks, List.mem_map] at hc
    obtain ⟨ip, hip, rfl⟩ := hc
    rw [List.mem_filter] at hip
    obtain ⟨hmem, hne⟩ := hip
    obtain ⟨i, p⟩ := ip
    refine ⟨i, p, ?_, rfl, rfl, ?_⟩
    · exact List.mk_mem_enum_iff_getElem?.mp hmem
    · simpa using hne
  · simp only [mock_get_text_chunks, List.length_map]
    exact length_filter_enumFrom (fun p => pyStrip p ≠ "") 0 _

/-- C4 counterexample: at token counts `(0, 4, 4)` the real-mode
`estimate_costs` rounds `llm_input_cost` and `llm_output_cost` (0.0000004
each) down to 0, yet `total_cost` rounds the unrounded sum 0.0000008 up to
0.000001 — so `total_cost` equals neither the sum of the three returned cost
fields nor that sum rounded to 6 places. -/
theorem C4_counterexample :
    (estimate_costs 0 4 4).total_cost
        ≠ (estimate_costs 0 4 4).embedding_cost + (estimate_costs 0 4 4).llm_input_cost
            + (estimate_costs 0 4 4).llm_output_cost ∧
      (estimate_costs 0 4 4).total_cost
        ≠ pyRound6 ((estimate_costs 0 4 4).embedding_cost
            + (estimate_costs 0 4 4).llm_input_cost
            + (estimate_costs 0 4 4).llm_output_cost) := by
  have h1 : (estimate_costs 0 4 4).embedding_cost = 0 := by
    simp only [estimate_costs, pyRound6, pyRoundHalfEven]
    norm_num
  have h2 : (estimate_costs 0 4 4).llm_input_cost = 0 := by
    simp only [estimate_costs, pyRound6, pyRoundHalfEven]
    norm_num
  have h3 : (estimate_costs 0 4 4).llm_output_cost = 0 := by
    simp only [estimate_costs, pyRound6, pyRoundHalfEven]
    norm_num
  have h4 : (estimate_costs 0 4 4).total_cost = 1/10^6 := by
    simp only [estimate_costs, pyRound6, pyRoundHalfEven]
    norm_num
  have h5 : pyRound6 0 = 0 := by
    simp only [pyRound6, pyRoundHalfEven]
    norm_num
  rw [h1, h2, h3, h4]
  norm_num [h5]

/-- C4 amended: in mock mode `total_cost` equals the sum of the three cost
fields exactly (as exact rational arithmetic); in real mode `total_cost`
equals `round(·, 6)` of the sum of the three costs as computed *before*
their own per-field rounding. -/
theorem C4_total_cost {ρ : Type} (query : String) (r : ρ) (docs : List Chunk)
    (e i o : ℕ) :
    ((mock_get_answer query r docs).cost_breakdown.total_cost
        = (mock_get_answer query r docs).cost_breakdown.embedding_cost
            + (mock_get_answer query r docs).cost_breakdown.llm_input_cost
            + (mock_get_answer query r docs).cost_breakdown.llm_output_cost) ∧
      (estimate_costs e i o).total_cost
        = pyRound6 (((e : ℚ) / 1000) * (125/10^7) + ((i : ℚ) / 1000) * (1/10^4)
            + ((o : ℚ) / 1000) * (1/10^4)) := by
  constructor
  · cases docs with
    | nil => simp [mock_get_answer]
    | cons d ds =>
      simp only [mock_get_answer, List.isEmpty_cons, Bool.false_eq_true, if_false]
      push_cast
      ring
  · rfl

/-- C5: with a non-empty mock document store, `sources` is exactly the list
of stored chunks whose lower-cased word set meets the query's lower-cased
word set, in original chunk order, truncated to the first 3 — an order-
preserving sublist of the store of length at most 3, every element of which
is relevant. -/
theorem C5_mock_sources {ρ : Type} (query : String) (r : ρ) (d : Chunk)
    (ds : List Chunk) :
    (mock_get_answer query r (d :: ds)).sources
        = ((d :: ds).filter (fun c => mock_relevant query c)).take 3 ∧
      (mock_get_answer query r (d :: ds)).sources.Sublist (d :: ds) ∧
      (mock_get_answer query r (d :: ds)).sources.length ≤ 3 ∧
      (∀ c ∈ (mock_get_answer query r (d :: ds)).sources, mock_relevant query c = true) ∧
      (∀ c : Chunk, mock_relevant query c = true ↔
        ∃ w ∈ pyWords (pyLower query), w ∈ pyWords (pyLower c.page_content)) := by
  have hsrc : (mock_get_answer query r (d :: ds)).sources
      = ((d :: ds).filter (fun c => mock_relevant query c)).take 3 := by
    simp [mock_get_answer]
  refine ⟨hsrc, ?_, ?_, ?_, ?_⟩
  · rw [hsrc]
    exact (List.take_sublist 3 _).trans (List.filter_sublist _)
  · rw [hsrc]
    exact List.length_take_le 3 _
  · intro c hc
    rw [hsrc] at hc
    exact List.of_mem_filter (List.mem_of_mem_take hc)
  · intro c
    simp [mock_relevant, List.any_eq_true, List.contains_eq_any_beq]

/-- C7: with a non-empty mock document store in which no chunk's lower-cased
word set meets the query's, the mock answer is exactly the fixed "cannot
find specific information" sentence and `sources` is empty. -/
theorem C7_zero_relevance {ρ : Type} (query : String) (r : ρ) (d : Chunk)
    (ds : List Chunk)
    (h : (d :: ds).filter (fun c => mock_relevant query c) = []) :
    (mock_get_answer query r (d :: ds)).answer = mock_no_match_answer ∧
      (mock_get_answer query r (d :: ds)).sources = [] := by
  constructor <;> simp [mock_get_answer, h]

/-- C7 witness: the store `["xyz"]` shares no word with the query `"abc"`. -/
theorem C7_zero_relevance_witness :
    ([⟨"xyz", ⟨"s", "s", 1⟩⟩] : List Chunk).filter (fun c => mock_relevant "abc" c) = [] ∧
      ((mock_get_answer "abc" () [⟨"xyz", ⟨"s", "s", 1⟩⟩]).answer = mock_no_match_answer ∧
        (mock_get_answer "abc" () [⟨"xyz", ⟨"s", "s", 1⟩⟩]).sources = []) :=
  ⟨by decide, C7_zero_relevance "abc" () ⟨"xyz", ⟨"s", "s", 1⟩⟩ [] (by decide)⟩

/-- C9: on a relevant chunk of 106 characters containing no `'.'`, the mock
answer embeds the *entire* chunk text, not its first 100 characters: the
claimed 100-character fallback is unreachable because Python's
`content.split('.')` always returns a non-empty list, so
`sentences[0] if sentences else content[:100]` always takes the first
branch. -/
theorem C9_first_sentence_no_truncation :
    (mock_get_answer "loyal" () [⟨long_unpunctuated_text, ⟨"s", "s", 1⟩⟩]).answer
        = long_unpunctuated_text ++ " [1]." ∧
      long_unpunctuated_text.data.length = 106 ∧
      long_unpunctuated_text.data.contains '.' = false ∧
      (mock_get_answer "loyal" () [⟨long_unpunctuated_text, ⟨"s", "s", 1⟩⟩]).answer
        ≠ pyTake long_unpunctuated_text 100 ++ " [1]." := by
  decide

end MiniRag
